import Mathlib

/-!
# Verification of the mplcanvas coordinate-transform and view-manipulation core

Shallow embedding of the coordinate-transform, autoscale/limit and pan/zoom
toolbar subsystem of the `mplcanvas` library, translated from
`src/mplcanvas/transforms/transforms.py`, `src/mplcanvas/axes.py` and
`src/mplcanvas/widgets/toolbar.py`.

Python floats are modelled by exact rationals (`ℚ`) wherever the code stays
in the finite range; where IEEE special values (±∞/NaN) are the point at
issue (division by a collapsed limit range), an explicit extended value type
`FVal` models numpy's scalar float semantics.  Python exceptions are
modelled by `Except`, with the error case carrying the (possibly partially
mutated) object state at the moment of the raise.
-/

namespace Mplcanvas

/-- Configuration read by `DataTransform` (`transforms.py`): the owning
axes' data limits (`get_xlim`/`get_ylim`) and its pixel rectangle
(`axes.x`, `axes.y`, `axes.width`, `axes.height`). -/
structure TransformCfg where
  xlo : ℚ
  xhi : ℚ
  ylo : ℚ
  yhi : ℚ
  x : ℚ
  y : ℚ
  width : ℚ
  height : ℚ

namespace DataTransform

/-- `DataTransform.transform` (`transforms.py` lines 11-28): data
coordinates to canvas pixels, with the y axis flipped. -/
def transform (c : TransformCfg) (xd yd : ℚ) : ℚ × ℚ :=
  let x_norm := (xd - c.xlo) / (c.xhi - c.xlo)
  let y_norm := (yd - c.ylo) / (c.yhi - c.ylo)
  (c.x + x_norm * c.width, c.y + (1 - y_norm) * c.height)

/-- `DataTransform.inverse_transform` (`transforms.py` lines 30-43): canvas
pixels back to data coordinates.  No clamping is performed. -/
def inverse_transform (c : TransformCfg) (cx cy : ℚ) : ℚ × ℚ :=
  let x_norm := (cx - c.x) / c.width
  let y_norm := 1 - (cy - c.y) / c.height
  (c.xlo + x_norm * (c.xhi - c.xlo), c.ylo + y_norm * (c.yhi - c.ylo))

end DataTransform

/-- C1: with non-degenerate limits and positive pixel size, the
pixel-to-data inverse composed with the data-to-pixel transform is the
identity on every data point, inside or outside the current pixel bounds
(exact equality in rational arithmetic, hence within any floating-point
tolerance; the inverse applies no clamping). -/
theorem transform_round_trip (c : TransformCfg)
    (hx : c.xlo < c.xhi) (hy : c.ylo < c.yhi)
    (hw : 0 < c.width) (hh : 0 < c.height) (xd yd : ℚ) :
    DataTransform.inverse_transform c
      (DataTransform.transform c xd yd).1
      (DataTransform.transform c xd yd).2 = (xd, yd) := by
  have hx0 : c.xhi - c.xlo ≠ 0 := sub_ne_zero.mpr (ne_of_gt hx)
  have hy0 : c.yhi - c.ylo ≠ 0 := sub_ne_zero.mpr (ne_of_gt hy)
  have hw0 : c.width ≠ 0 := ne_of_gt hw
  have hh0 : c.height ≠ 0 := ne_of_gt hh
  simp only [DataTransform.transform, DataTransform.inverse_transform,
    Prod.mk.injEq]
  constructor
  · field_simp
    ring
  · field_simp
    ring

/-- Closed witness for the round-trip theorem at a concrete configuration
and a point outside the pixel bounds. -/
theorem transform_round_trip_witness :
    DataTransform.inverse_transform
      ⟨0, 10, -2, 2, 50, 40, 400, 300⟩
      (DataTransform.transform ⟨0, 10, -2, 2, 50, 40, 400, 300⟩ 25 7).1
      (DataTransform.transform ⟨0, 10, -2, 2, 50, 40, 400, 300⟩ 25 7).2
      = (25, 7) :=
  transform_round_trip ⟨0, 10, -2, 2, 50, 40, 400, 300⟩
    (by norm_num) (by norm_num) (by norm_num) (by norm_num) 25 7

/-- Extended value modelling a numpy float64 scalar where IEEE special
values matter: a finite value is an exact rational (rounding is not at
issue in these claims), plus ±∞ and NaN as produced by division by zero.
numpy emits a RuntimeWarning and returns these values; it does not raise. -/
inductive FVal where
  | fin (q : ℚ)
  | inf
  | negInf
  | nan
deriving DecidableEq

namespace FVal

/-- True exactly on finite values. -/
def isFinite : FVal → Bool
  | fin _ => true
  | _ => false

/-- IEEE negation. -/
def neg : FVal → FVal
  | fin q => fin (-q)
  | inf => negInf
  | negInf => inf
  | nan => nan

/-- IEEE addition (NaN propagates; ∞ + (−∞) = NaN). -/
def add : FVal → FVal → FVal
  | fin a, fin b => fin (a + b)
  | fin _, inf => inf
  | fin _, negInf => negInf
  | inf, fin _ => inf
  | negInf, fin _ => negInf
  | inf, inf => inf
  | negInf, negInf => negInf
  | _, _ => nan

/-- IEEE subtraction. -/
def sub (a b : FVal) : FVal := add a (neg b)

/-- IEEE multiplication (0 · ∞ = NaN; NaN propagates). -/
def mul : FVal → FVal → FVal
  | fin a, fin b => fin (a * b)
  | fin a, inf => if 0 < a then inf else if a < 0 then negInf else nan
  | fin a, negInf => if 0 < a then negInf else if a < 0 then inf else nan
  | inf, fin b => if 0 < b then inf else if b < 0 then negInf else nan
  | negInf, fin b => if 0 < b then negInf else if b < 0 then inf else nan
  | inf, inf => inf
  | inf, negInf => negInf
  | negInf, inf => negInf
  | negInf, negInf => inf
  | _, _ => nan

/-- IEEE division with numpy semantics for a zero divisor: nonzero/0 is
±∞ (the rational 0 is the positive zero), 0/0 is NaN. -/
def div : FVal → FVal → FVal
  | fin a, fin b =>
      if b ≠ 0 then fin (a / b)
      else if a = 0 then nan
      else if 0 < a then inf else negInf
  | fin _, inf => fin 0
  | fin _, negInf => fin 0
  | inf, fin b => if 0 ≤ b then inf else negInf
  | negInf, fin b => if 0 ≤ b then negInf else inf
  | _, _ => nan

end FVal

namespace DataTransform

/-- `DataTransform.transform` (`transforms.py` lines 11-28) re-expressed
over the IEEE value model `FVal`, for reasoning about collapsed limit
ranges: the source performs the divisions unconditionally, with no
degeneracy check and no error path. -/
def transformF (c : TransformCfg) (xd yd : ℚ) : FVal × FVal :=
  let x_norm := FVal.div (FVal.sub (.fin xd) (.fin c.xlo))
    (FVal.sub (.fin c.xhi) (.fin c.xlo))
  let y_norm := FVal.div (FVal.sub (.fin yd) (.fin c.ylo))
    (FVal.sub (.fin c.yhi) (.fin c.ylo))
  (FVal.add (.fin c.x) (FVal.mul x_norm (.fin c.width)),
   FVal.add (.fin c.y) (FVal.mul (FVal.sub (.fin 1) y_norm) (.fin c.height)))

end DataTransform

/-- C2 counterexample: with the collapsed x-range `xlim = (3,3)` the
transform does not signal any error — it is a total function that silently
returns `+∞` for the x pixel coordinate of the data point `(7, 1/2)`
(numpy division-by-zero semantics).  No `DegenerateTransform` error exists
anywhere in the code. -/
theorem transform_degenerate_returns_inf :
    (DataTransform.transformF ⟨3, 3, 0, 1, 0, 0, 400, 300⟩ 7 (1/2)).1
      = FVal.inf := by
  norm_num [DataTransform.transformF, FVal.sub, FVal.neg, FVal.add,
    FVal.div, FVal.mul]

/-- C2 amended: when the x limit range collapses (`xhi = xlo`) and the
pixel width is positive, the transform silently returns a non-finite
(±∞ or NaN) x pixel coordinate; no error is raised. -/
theorem transform_degenerate_not_finite (c : TransformCfg) (xd yd : ℚ)
    (hc : c.xhi = c.xlo) (hw : 0 < c.width) :
    ((DataTransform.transformF c xd yd).1.isFinite) = false := by
  simp only [DataTransform.transformF, FVal.sub, FVal.neg, FVal.add, hc]
  rcases lt_trichotomy (xd + -c.xlo) 0 with h | h | h
  · have hne : ¬ (xd + -c.xlo = 0) := ne_of_lt h
    have hpos : ¬ (0 < xd + -c.xlo) := not_lt.mpr (le_of_lt h)
    simp [FVal.div, FVal.mul, FVal.add, FVal.isFinite, hne, hpos, h, hw]
  · simp [FVal.div, FVal.mul, FVal.add, FVal.isFinite, h]
  · have hne : ¬ (xd + -c.xlo = 0) := (ne_of_gt h)
    simp [FVal.div, FVal.mul, FVal.add, FVal.isFinite, hne, h, hw]

/-- Closed witness for the amended C2 theorem at a concrete degenerate
configuration. -/
theorem transform_degenerate_not_finite_witness :
    ((DataTransform.transformF ⟨5, 5, 0, 1, 10, 20, 400, 300⟩ 9 2).1.isFinite)
      = false :=
  transform_degenerate_not_finite ⟨5, 5, 0, 1, 10, 20, 400, 300⟩ 9 2
    rfl (by norm_num)

/-- `Line2D` artist (`artists/line.py`): only the stored data arrays are
relevant to the claims; style fields are omitted.  The constructor
performs no validation (in particular no x/y length check). -/
structure Line2D where
  x : List ℚ
  y : List ℚ
deriving DecidableEq

/-- A scatter collection entry (`axes.py` `self.collections`); `plot`
only ever reads the length of this list. -/
structure Collection where
  x : List ℚ
  y : List ℚ
deriving DecidableEq

/-- The `Axes` state touched by the claims (`axes.py` `__init__`): pixel
rectangle, data limits, autoscale flags and the artist lists.  Rendering
and the shadow-matplotlib tick machinery are omitted. -/
structure Axes where
  x : ℚ
  y : ℚ
  width : ℚ
  height : ℚ
  xlim : ℚ × ℚ
  ylim : ℚ × ℚ
  autoscale_x : Bool
  autoscale_y : Bool
  lines : List Line2D
  collections : List Collection
deriving DecidableEq

/-- A fresh `Axes` as built by `Axes.__init__(figure, rect)`:
`_xlim = [0, 1]`, `_ylim = [0, 1]`, both autoscale flags on, no artists. -/
def Axes.init (x y w h : ℚ) : Axes :=
  ⟨x, y, w, h, (0, 1), (0, 1), true, true, [], []⟩

/-- `np.min` over a 1-d array: `none` models the `ValueError` raised on an
empty array. -/
def npMin : List ℚ → Option ℚ
  | [] => none
  | a :: as => some (as.foldl min a)

/-- `np.max` over a 1-d array (`none` on empty, as `npMin`). -/
def npMax : List ℚ → Option ℚ
  | [] => none
  | a :: as => some (as.foldl max a)

/-- `np.arange(n)` as exact rationals. -/
def npArange (n : Nat) : List ℚ := (List.range n).map (fun k => (k : ℚ))

@[simp] theorem npMin_cons (a : ℚ) (as : List ℚ) :
    npMin (a :: as) = some (as.foldl min a) := rfl

@[simp] theorem npMax_cons (a : ℚ) (as : List ℚ) :
    npMax (a :: as) = some (as.foldl max a) := rfl

theorem list_get?_set_self {α : Type} (l : List α) (i : Nat) (a : α)
    (h : i < l.length) : (l.set i a).get? i = some a := by
  rw [List.get?_eq_getElem?]
  exact List.getElem?_set_eq_of_lt a h

/-- Decidable equality for `Except` results, used only to evaluate closed
test cases. -/
instance {ε α : Type} [DecidableEq ε] [DecidableEq α] :
    DecidableEq (Except ε α) := fun a b =>
  match a, b with
  | .ok x, .ok y =>
      if h : x = y then .isTrue (by rw [h])
      else .isFalse (by intro hc; cases hc; exact h rfl)
  | .error x, .error y =>
      if h : x = y then .isTrue (by rw [h])
      else .isFalse (by intro hc; cases hc; exact h rfl)
  | .ok _, .error _ => .isFalse (by intro hc; cases hc)
  | .error _, .ok _ => .isFalse (by intro hc; cases hc)

/-- The `ValueError`s an `Axes.plot` call can raise:
`invalidArgumentCount` from the arity check (`axes.py` line 96),
`emptyArray` from `np.min`/`np.max` on an empty array, and
`columnStackMismatch` from `np.column_stack` in `Line2D.draw`
(`artists/line.py` line 65) during the redraw triggered at
`axes.py` line 112. -/
inductive PlotErr where
  | invalidArgumentCount
  | emptyArray
  | columnStackMismatch
deriving DecidableEq

/-- `Axes._update_datalim` (`axes.py` lines 152-164).  The error case
carries the axes state at the moment `np.min`/`np.max` raises on an empty
array (the x limits may already have been mutated by then, mirroring the
in-place mutation order of the source). -/
def Axes.update_datalim (ax : Axes) (x yv : List ℚ) :
    Except (PlotErr × Axes) Axes :=
  if ax.lines = [] ∧ ax.collections = [] then
    match npMin x, npMax x with
    | some lo, some hi =>
      let ax1 := {ax with xlim := (lo, hi)}
      match npMin yv, npMax yv with
      | some lo2, some hi2 => .ok {ax1 with ylim := (lo2, hi2)}
      | _, _ => .error (.emptyArray, ax1)
    | _, _ => .error (.emptyArray, ax)
  else
    let stepx : Except (PlotErr × Axes) Axes :=
      if ax.autoscale_x then
        match npMin x, npMax x with
        | some lo, some hi =>
          .ok {ax with xlim := (min ax.xlim.1 lo, max ax.xlim.2 hi)}
        | _, _ => .error (.emptyArray, ax)
      else .ok ax
    match stepx with
    | .error e => .error e
    | .ok ax1 =>
      if ax1.autoscale_y then
        match npMin yv, npMax yv with
        | some lo, some hi =>
          .ok {ax1 with ylim := (min ax1.ylim.1 lo, max ax1.ylim.2 hi)}
        | _, _ => .error (.emptyArray, ax1)
      else .ok ax1

/-- `self._xlim = [np.min(x), np.max(x)]` (`axes.py` line 107). -/
def Axes.overwrite_xlim (ax : Axes) (x : List ℚ) :
    Except (PlotErr × Axes) Axes :=
  match npMin x, npMax x with
  | some lo, some hi => .ok {ax with xlim := (lo, hi)}
  | _, _ => .error (.emptyArray, ax)

/-- `self._ylim = [np.min(y), np.max(y)]` (`axes.py` line 109). -/
def Axes.overwrite_ylim (ax : Axes) (yv : List ℚ) :
    Except (PlotErr × Axes) Axes :=
  match npMin yv, npMax yv with
  | some lo, some hi => .ok {ax with ylim := (lo, hi)}
  | _, _ => .error (.emptyArray, ax)

/-- The state mutation of `Axes.plot` after argument parsing (`axes.py`
lines 98-109 and the return value of line 114): the `Line2D` artist is
appended first; then, if either autoscale flag is set, `_update_datalim`
runs and its result is immediately overwritten by `[np.min, np.max]` of
the new data alone (lines 106-109).  The redraw `self.figure.draw()` at
line 112 — which can itself raise for mismatched x/y lengths — is
embedded separately below (`Axes.draw_raises`, `Axes.plotCall_full`). -/
def Axes.plot_parsed (ax : Axes) (x yv : List ℚ) :
    Except (PlotErr × Axes) Axes :=
  let ax1 := {ax with lines := ax.lines ++ [Line2D.mk x yv]}
  if ax1.autoscale_x || ax1.autoscale_y then do
    let ax2 ← ax1.update_datalim x yv
    let ax3 ← if ax2.autoscale_x then ax2.overwrite_xlim x else pure ax2
    if ax3.autoscale_y then ax3.overwrite_ylim yv else pure ax3
  else
    pure ax1

/-- `Axes.plot(*args)` argument parsing (`axes.py` lines 84-96):
`plot(y)` synthesises `x = np.arange(len(y))`; `plot(x, y)` passes both
through; any other arity raises `ValueError` before any state is touched. -/
def Axes.plotCall (ax : Axes) (args : List (List ℚ)) :
    Except (PlotErr × Axes) Axes :=
  match args with
  | [y0] => ax.plot_parsed (npArange y0.length) y0
  | [x0, y0] => ax.plot_parsed x0 y0
  | _ => .error (.invalidArgumentCount, ax)

/-- Whether `Line2D.draw` raises (`artists/line.py` lines 49-66): drawing
returns early when the line is invisible or `len(self.x) == 0`;
otherwise, with the defaults every `plot`-created line has
(`visible=True`, `linestyle="-"`, `marker=None`), it reaches
`np.column_stack([canvas_x, canvas_y])` (line 65), which raises
`ValueError` exactly when the two arrays' lengths — `len(x)` and
`len(y)` — differ.  (The element-wise transform on line 57 computes the
x and y arrays independently and raises nothing.) -/
def Line2D.draw_line_raises (l : Line2D) : Bool :=
  decide (l.x.length ≠ 0 ∧ l.x.length ≠ l.y.length)

/-- Whether the redraw `self.figure.draw()` (`axes.py` line 112) raises
for this axes: `Figure.draw` redraws every axes, and `Axes.draw`
(`axes.py` lines 339-340) draws every line in order, so the redraw
raises iff some line's draw raises.  (Collections cannot contribute:
`PathCollection` is undefined in `axes.py`, so `scatter` fails before
ever appending one.) -/
def Axes.draw_raises (ax : Axes) : Bool :=
  ax.lines.any (fun l => l.draw_line_raises)

/-- `Axes.plot(*args)` in full (`axes.py` lines 84-114): the state
mutation of `plotCall` followed by the redraw of line 112, which raises
`ValueError` (`np.column_stack`) out of the otherwise-complete call when
some line has mismatched x/y lengths — the already-appended artist and
already-updated limits remain in place, carried by the error state. -/
def Axes.plotCall_full (ax : Axes) (args : List (List ℚ)) :
    Except (PlotErr × Axes) Axes :=
  match ax.plotCall args with
  | .error e => .error e
  | .ok ax1 =>
      if ax1.draw_raises then .error (.columnStackMismatch, ax1)
      else .ok ax1

/-- C3 failing input: on a fresh autoscaling axes, `plot([0,10])` followed
by `plot([-5,5])` ends with `ylim = (-5, 5)`, not the union `(-5, 10)`
the claim requires: `plot` (lines 106-109) overwrites the union computed
by `_update_datalim` with the extent of the new data alone, so autoscaled
limits do shrink. -/
theorem plot_autoscale_shrinks :
    (((Axes.init 0 0 400 300).plotCall [[0, 10]]).bind
        (fun ax1 => ax1.plotCall [[-5, 5]])).map (fun ax => ax.ylim)
      = .ok (-5, 5) := by
  decide

/-- C8 counterexample: plotting the single-value series `[3]` on a fresh
autoscaling axes yields `xlim = (0, 0)` and `ylim = (3, 3)` — both
degenerate with `lo == hi`, and no padding is applied anywhere. -/
theorem plot_single_value_unpadded :
    ((Axes.init 0 0 400 300).plotCall [[3]]).map
        (fun ax => (ax.xlim, ax.ylim))
      = .ok ((0, 0), (3, 3)) := by
  decide

/-- C8 amended: a series with a single unique value plotted on an axes
whose y axis is autoscaling produces the degenerate limits
`ylim = (v, v)` with `lo == hi`; the range is not padded. (An empty
series instead raises `ValueError` from `np.min`.) -/
theorem plot_single_value_degenerate (ax : Axes) (v : ℚ)
    (hy : ax.autoscale_y = true) :
    ∃ ax2, ax.plotCall [[v]] = .ok ax2 ∧ ax2.ylim = (v, v) := by
  cases hx : ax.autoscale_x <;>
    simp [Axes.plotCall, Axes.plot_parsed, Axes.update_datalim,
      Axes.overwrite_xlim, Axes.overwrite_ylim, npArange, hy, hx,
      List.range_succ, List.singleton, Bind.bind, Except.bind, pure,
      Except.pure]

/-- Closed witness for the amended C8 theorem. -/
theorem plot_single_value_degenerate_witness :
    (Axes.init 5 5 100 100).autoscale_y = true ∧
      ∃ ax2, (Axes.init 5 5 100 100).plotCall [[7]] = .ok ax2 ∧
        ax2.ylim = (7, 7) :=
  ⟨rfl, plot_single_value_degenerate (Axes.init 5 5 100 100) 7 rfl⟩

/-- C9 counterexample: the mismatched-length call `plot([0,1,2],[10,20])`
on a fresh axes does raise `ValueError` — but from `np.column_stack`
during the redraw, not fast: by the time it propagates, the partial
artist is already appended and the limits already overwritten to
`xlim = (0,2)`, `ylim = (10,20)` (the fresh axes had no artists and
limits `(0,1)`), contradicting "fails fast ... no partial artist is
appended to the artist list and the limits are not modified". -/
theorem plot_mismatched_lengths_mutates_then_raises :
    (Axes.init 0 0 400 300).plotCall_full [[0, 1, 2], [10, 20]]
      = .error (.columnStackMismatch,
          ⟨0, 0, 400, 300, (0, 2), (10, 20), true, true,
            [Line2D.mk [0, 1, 2] [10, 20]], []⟩)
    ∧ (Axes.init 0 0 400 300).lines = []
    ∧ (Axes.init 0 0 400 300).xlim = (0, 1)
    ∧ (Axes.init 0 0 400 300).ylim = (0, 1) := by
  decide

/-- C9 amended: a call with an unsupported number of arguments (anything
other than 1 or 2 arrays) fails fast with `ValueError` and the axes
state is unchanged (the error carries the untouched state); mismatched
x/y lengths are not validated up front — the artist is appended and the
autoscale updates run, and the call only then raises `ValueError` from
`np.column_stack` in `Line2D.draw` during the redraw, leaving the
partial artist (and any limit updates) in place. -/
theorem plot_arity_fast_mismatch_raises_after_mutation :
    (∀ (ax : Axes) (args : List (List ℚ)),
        args.length ≠ 1 → args.length ≠ 2 →
        ax.plotCall_full args = .error (.invalidArgumentCount, ax))
    ∧ (∀ (ax : Axes) (x yv : List ℚ), x ≠ [] → yv ≠ [] →
        x.length ≠ yv.length →
        ∃ axp, ax.plotCall_full [x, yv]
            = .error (.columnStackMismatch, axp)
          ∧ axp.lines = ax.lines ++ [Line2D.mk x yv]) := by
  constructor
  · intro ax args h1 h2
    match args with
    | [] => rfl
    | [_] => exact absurd rfl h1
    | [_, _] => exact absurd rfl h2
    | _ :: _ :: _ :: _ => rfl
  · intro ax x yv hx hy hlen
    match x, yv with
    | a :: as, c :: cs =>
      have hlen2 : ¬ as.length = cs.length := by simpa using hlen
      have hb : Line2D.draw_line_raises (Line2D.mk (a :: as) (c :: cs))
          = true := by
        simp [Line2D.draw_line_raises, hlen2]
      cases hax : ax.autoscale_x <;> cases hay : ax.autoscale_y <;>
        simp [Axes.plotCall_full, Axes.plotCall, Axes.plot_parsed,
          Axes.update_datalim, Axes.overwrite_xlim, Axes.overwrite_ylim,
          Axes.draw_raises, hb, hax, hay, Bind.bind, Except.bind, pure,
          Except.pure]

/-- Closed witness for the amended C9 theorem: a 3-argument call fails
fast with the state untouched, and a mismatched-length call raises from
the redraw with the artist already appended. -/
theorem plot_arity_fast_mismatch_raises_after_mutation_witness :
    ((Axes.init 0 0 400 300).plotCall_full [[1], [2], [3]]
        = .error (.invalidArgumentCount, Axes.init 0 0 400 300))
    ∧ ∃ axp, (Axes.init 0 0 400 300).plotCall_full [[0, 1, 2], [10, 20]]
        = .error (.columnStackMismatch, axp)
        ∧ axp.lines = (Axes.init 0 0 400 300).lines
            ++ [Line2D.mk [0, 1, 2] [10, 20]] :=
  ⟨plot_arity_fast_mismatch_raises_after_mutation.1
      (Axes.init 0 0 400 300) [[1], [2], [3]] (by decide) (by decide),
    plot_arity_fast_mismatch_raises_after_mutation.2
      (Axes.init 0 0 400 300) [0, 1, 2] [10, 20] (by decide) (by decide)
      (by decide)⟩

/-- `Axes.set_xlim(left, right)` (`axes.py` lines 166-175): each provided
bound overwrites the corresponding limit, the x axis leaves autoscaling.
(The shadow-matplotlib sync is rendering-only and omitted.) -/
def Axes.set_xlim (ax : Axes) (left right : Option ℚ) : Axes :=
  { ax with xlim := (left.getD ax.xlim.1, right.getD ax.xlim.2),
            autoscale_x := false }

/-- `Axes.set_ylim(bottom, top)` (`axes.py` lines 177-186). -/
def Axes.set_ylim (ax : Axes) (bottom top : Option ℚ) : Axes :=
  { ax with ylim := (bottom.getD ax.ylim.1, top.getD ax.ylim.2),
            autoscale_y := false }

/-- `MouseEventMixin._point_in_axes` (`events/mouse.py` lines 147-152):
inclusive bounds test against the axes' pixel rectangle. -/
def Axes.point_in_axes (ax : Axes) (cx cy : ℚ) : Bool :=
  decide (ax.x ≤ cx ∧ cx ≤ ax.x + ax.width) &&
    decide (ax.y ≤ cy ∧ cy ≤ ax.y + ax.height)

/-- The two toolbar tools (`self._active_tool` is `'pan'`, `'zoom'` or
`None`). -/
inductive Tool where
  | pan
  | zoom
deriving DecidableEq

/-- The `self._pan_axes_bounds` dict captured by `_start_pan`
(`toolbar.py` lines 313-320). -/
structure PanBounds where
  x : ℚ
  y : ℚ
  width : ℚ
  height : ℚ
  xlim : ℚ × ℚ
  ylim : ℚ × ℚ
deriving DecidableEq

/-- `NavigationToolbar` state (`toolbar.py` `__init__` plus the attributes
later handlers create): tool state, the two toggle buttons' values, the
pan and zoom gesture anchors and the preview-rectangle flag.  Python's
object-identity references to axes are modelled as indices into the
figure's axes list.  `pan_start` is the attribute written only by
`_end_pan`; it is read nowhere. -/
structure Toolbar where
  active_tool : Option Tool
  pan_button_value : Bool
  zoom_button_value : Bool
  pan_start : Option (ℚ × ℚ)
  pan_start_canvas : Option (ℚ × ℚ)
  pan_start_data : Option (ℚ × ℚ)
  pan_start_limits : Option ((ℚ × ℚ) × (ℚ × ℚ))
  pan_axes_bounds : Option PanBounds
  zoom_rect_start : Option (ℚ × ℚ)
  zoom_rect_start_canvas : Option (ℚ × ℚ)
  zoom_rect_visible : Bool
  active_axes : Option Nat
deriving DecidableEq

/-- Toolbar state after `NavigationToolbar.__init__`: no tool, no
anchors, both toggle buttons off. -/
def Toolbar.init : Toolbar :=
  ⟨none, false, false, none, none, none, none, none, none, none, false,
    none⟩

/-- The state the gesture protocols mutate: the figure's axes list plus
the toolbar. -/
structure Sys where
  axes : List Axes
  tb : Toolbar
deriving DecidableEq

/-- A canonical mouse event as delivered to the toolbar callbacks
(`events/mouse.py` `MouseEvent`): canvas pixel coordinates, data
coordinates (already converted by the owning axes' transform) and the
owning axes (`inaxes`). -/
structure MouseEvent where
  canvas_x : ℚ
  canvas_y : ℚ
  data_x : ℚ
  data_y : ℚ
  inaxes : Option Nat
deriving DecidableEq

/-- `NavigationToolbar._determine_active_axes` (`toolbar.py` lines
131-145): the event's `inaxes` if set, otherwise the first axes whose
pixel rectangle contains the event. -/
def Sys.determine_active_axes (s : Sys) (e : MouseEvent) : Option Nat :=
  match e.inaxes with
  | some i => some i
  | none =>
      s.axes.findIdx? (fun ax => ax.point_in_axes e.canvas_x e.canvas_y)

/-- `NavigationToolbar._start_pan` (`toolbar.py` lines 297-320): freeze
the press point (canvas and data), the active axes' current limits and
its bounds dict.  The `none` fallback is unreachable: the caller
(`_on_mouse_press`) has just set a valid `active_axes`. -/
def Sys.start_pan (s : Sys) (e : MouseEvent) : Sys :=
  match s.tb.active_axes.bind (fun i => s.axes.get? i) with
  | none => s
  | some ax =>
      { s with tb := { s.tb with
          pan_start_canvas := some (e.canvas_x, e.canvas_y),
          pan_start_data := some (e.data_x, e.data_y),
          pan_start_limits := some (ax.xlim, ax.ylim),
          pan_axes_bounds :=
            some ⟨ax.x, ax.y, ax.width, ax.height, ax.xlim, ax.ylim⟩ } }

/-- `NavigationToolbar._do_pan` (`toolbar.py` lines 326-357): canvas
delta against the frozen `_pan_start_canvas`, converted to a data delta
with the frozen bounds/limits, applied to the frozen start limits via
`set_xlim`/`set_ylim`.  Returns the state unchanged when any of the three
guarded attributes is `None` (the source's early return); the axes lookup
cannot fail in the source (object identity). -/
def Sys.do_pan (s : Sys) (e : MouseEvent) : Sys :=
  match s.tb.pan_start_canvas, s.tb.pan_start_limits, s.tb.active_axes with
  | some pc, some pl, some i =>
      match s.tb.pan_axes_bounds, s.axes.get? i with
      | some b, some ax =>
          let dx_canvas := e.canvas_x - pc.1
          let dy_canvas := e.canvas_y - pc.2
          let dx_data := dx_canvas / b.width * (b.xlim.2 - b.xlim.1)
          let dy_data := -(dy_canvas / b.height) * (b.ylim.2 - b.ylim.1)
          let new_xlim := (pl.1.1 - dx_data, pl.1.2 - dx_data)
          let new_ylim := (pl.2.1 - dy_data, pl.2.2 - dy_data)
          let ax1 := (ax.set_xlim (some new_xlim.1)
            (some new_xlim.2)).set_ylim (some new_ylim.1) (some new_ylim.2)
          { s with axes := s.axes.set i ax1 }
      | _, _ => s
  | _, _, _ => s

/-- `NavigationToolbar._end_pan` (`toolbar.py` lines 359-364): clears
`_pan_start` (an attribute nothing else uses), `_pan_start_limits` and
`_active_axes` — and nothing else: `_pan_start_canvas`,
`_pan_start_data` and `_pan_axes_bounds` keep their values. -/
def Toolbar.end_pan (tb : Toolbar) : Toolbar :=
  { tb with pan_start := none, pan_start_limits := none,
            active_axes := none }

/-- `NavigationToolbar._start_zoom` (`toolbar.py` lines 449-455). -/
def Toolbar.start_zoom (tb : Toolbar) (e : MouseEvent) : Toolbar :=
  { tb with zoom_rect_start := some (e.data_x, e.data_y),
            zoom_rect_start_canvas := some (e.canvas_x, e.canvas_y),
            zoom_rect_visible := true }

/-- `NavigationToolbar._clear_zoom_rectangle` (`toolbar.py` lines
442-447): drops the visibility flag (and redraws, which mutates no
modelled state). -/
def Toolbar.clear_zoom_rectangle (tb : Toolbar) : Toolbar :=
  if tb.zoom_rect_visible then { tb with zoom_rect_visible := false }
  else tb

/-- `NavigationToolbar._end_zoom` (`toolbar.py` lines 495-527): guarded
early return; clear the preview; if EITHER data extent is below the
`min_size = 0.01` threshold, treat as a no-op click (limits untouched,
anchors cleared); otherwise set both axes' limits to `[min, max]` and
clear the anchors. -/
def Sys.end_zoom (s : Sys) (e : MouseEvent) : Sys :=
  match s.tb.zoom_rect_start, s.tb.active_axes with
  | some z, some i =>
      let tb1 := s.tb.clear_zoom_rectangle
      let tb2 := { tb1 with
                   zoom_rect_start := (none : Option (ℚ × ℚ)),
                   zoom_rect_start_canvas := (none : Option (ℚ × ℚ)),
                   active_axes := (none : Option Nat) }
      if |e.data_x - z.1| < 1/100 ∨ |e.data_y - z.2| < 1/100 then
        { s with tb := tb2 }
      else
        let axes1 :=
          match s.axes.get? i with
          | some ax =>
              s.axes.set i ((ax.set_xlim (some (min z.1 e.data_x))
                (some (max z.1 e.data_x))).set_ylim
                  (some (min z.2 e.data_y)) (some (max z.2 e.data_y)))
          | none => s.axes
        { axes := axes1, tb := tb2 }
  | _, _ => s

/-- `NavigationToolbar._on_mouse_press` (`toolbar.py` lines 223-232):
with a tool active, record the targeted axes and start the gesture
(only when a target was found). -/
def Sys.on_mouse_press (s : Sys) (e : MouseEvent) : Sys :=
  if s.tb.active_tool = some Tool.pan then
    let aa := s.determine_active_axes e
    let s1 : Sys := { s with tb := { s.tb with active_axes := aa } }
    if aa.isSome then s1.start_pan e else s1
  else if s.tb.active_tool = some Tool.zoom then
    let aa := s.determine_active_axes e
    let s1 : Sys := { s with tb := { s.tb with active_axes := aa } }
    if aa.isSome then { s1 with tb := s1.tb.start_zoom e } else s1
  else s

/-- `NavigationToolbar._on_mouse_move` (`toolbar.py` lines 212-221): a
pan in progress continues only when the event's `inaxes` equals the
gesture's axes; a zoom in progress only redraws the preview rectangle,
mutating no modelled state. -/
def Sys.on_mouse_move (s : Sys) (e : MouseEvent) : Sys :=
  if s.tb.active_tool = some Tool.pan ∧ s.tb.pan_start_canvas ≠ none then
    if s.tb.active_axes = e.inaxes then s.do_pan e else s
  else s

/-- `NavigationToolbar._on_mouse_release` (`toolbar.py` lines 234-241):
end the gesture only when the release resolves to the gesture's axes. -/
def Sys.on_mouse_release (s : Sys) (e : MouseEvent) : Sys :=
  if s.tb.active_tool = some Tool.pan ∧ s.tb.pan_start_canvas ≠ none then
    if s.tb.active_axes = s.determine_active_axes e then
      { s with tb := s.tb.end_pan }
    else s
  else if s.tb.active_tool = some Tool.zoom
      ∧ s.tb.zoom_rect_start ≠ none then
    if s.tb.active_axes = s.determine_active_axes e then s.end_zoom e
    else s
  else s

/-- A user click on the pan toggle button: the widget flips its value and
the `_on_pan_clicked` observer (`toolbar.py` lines 161-181) runs.  When
toggled on, it sets the tool and programmatically drops
`zoom_button.value`; the re-entrant `_on_zoom_clicked` call that triggers
returns immediately at the `_tools_lock` guard, so only the stored value
changes.  Nothing else — in particular no gesture state — is touched. -/
def Toolbar.click_pan_button (tb : Toolbar) : Toolbar :=
  if tb.pan_button_value then
    { tb with
      pan_button_value := false,
      active_tool :=
        if tb.active_tool = some Tool.pan then none else tb.active_tool }
  else
    { tb with
      pan_button_value := true,
      active_tool := some Tool.pan,
      zoom_button_value := false }

/-- A user click on the zoom toggle button (`_on_zoom_clicked`,
`toolbar.py` lines 183-200).  Toggling on additionally calls
`_clear_zoom_rectangle`; toggling off clears nothing. -/
def Toolbar.click_zoom_button (tb : Toolbar) : Toolbar :=
  if tb.zoom_button_value then
    { tb with
      zoom_button_value := false,
      active_tool :=
        if tb.active_tool = some Tool.zoom then none else tb.active_tool }
  else
    Toolbar.clear_zoom_rectangle
      { tb with
        zoom_button_value := true,
        active_tool := some Tool.zoom,
        pan_button_value := false }

/-- C5 counterexample: a zoom gesture from data point `(2,1)` released at
data point `(7,1)` has x extent `5` (far above the threshold) and y
extent `0` (below it) — the claim's "no-op iff BOTH extents below 0.01"
predicts a zoom to `xlim = (2,7)`, but the code tests `or` and leaves the
limits at `(0,10)`. -/
theorem end_zoom_either_small_is_noop :
    ((Sys.mk [⟨0, 0, 400, 300, (0, 10), (0, 10), true, true, [], []⟩]
        { Toolbar.init with
          active_tool := some Tool.zoom,
          zoom_button_value := true,
          zoom_rect_start := some (2, 1),
          zoom_rect_start_canvas := some (80, 270),
          zoom_rect_visible := true,
          active_axes := some 0 }).on_mouse_release
            ⟨280, 270, 7, 1, some 0⟩).axes.map (fun a => a.xlim)
      = [(0, 10)]
    ∧ ¬(|(7 : ℚ) - 2| < 1/100 ∧ |(1 : ℚ) - 1| < 1/100) := by
  constructor
  · norm_num [Sys.on_mouse_release, Sys.determine_active_axes,
      Sys.end_zoom, Toolbar.clear_zoom_rectangle, Toolbar.init]
    simp
  · norm_num

/-- C5 amended: on release of a zoom gesture, the gesture is a no-op
(limits untouched, anchors cleared) iff at least ONE of the two data
extents is below the 0.01 threshold; only when both extents reach the
threshold are the limits set to `[min, max]` of the two corner values. -/
theorem end_zoom_minsize_spec (s : Sys) (i : Nat) (ax : Axes)
    (z : ℚ × ℚ) (e : MouseEvent)
    (hax : s.axes.get? i = some ax)
    (hz : s.tb.zoom_rect_start = some z)
    (ha : s.tb.active_axes = some i) :
    ((|e.data_x - z.1| < 1/100 ∨ |e.data_y - z.2| < 1/100) →
        (s.end_zoom e).axes = s.axes
          ∧ (s.end_zoom e).tb.zoom_rect_start = none
          ∧ (s.end_zoom e).tb.active_axes = none)
    ∧ (¬(|e.data_x - z.1| < 1/100 ∨ |e.data_y - z.2| < 1/100) →
        ∃ ax1, (s.end_zoom e).axes.get? i = some ax1
          ∧ ax1.xlim = (min z.1 e.data_x, max z.1 e.data_x)
          ∧ ax1.ylim = (min z.2 e.data_y, max z.2 e.data_y)) := by
  have hlen : i < s.axes.length := by
    rcases List.get?_eq_some.mp hax with ⟨h, _⟩
    exact h
  constructor
  · intro hsmall
    simp only [Sys.end_zoom, hz, ha]
    rw [if_pos hsmall]
    exact ⟨rfl, rfl, rfl⟩
  · intro hbig
    simp only [Sys.end_zoom, hz, ha, hax]
    rw [if_neg hbig]
    refine ⟨(ax.set_xlim (some (min z.1 e.data_x))
        (some (max z.1 e.data_x))).set_ylim (some (min z.2 e.data_y))
          (some (max z.2 e.data_y)), ?_, ?_, ?_⟩
    · exact list_get?_set_self _ _ _ hlen
    · simp [Axes.set_xlim, Axes.set_ylim]
    · simp [Axes.set_xlim, Axes.set_ylim]

/-- Closed witness for the amended C5 theorem, exercising both branches:
a `(2,1) → (7,1)` gesture is rejected (y extent too small); a
`(2,1) → (7,6)` gesture zooms to `xlim = (2,7)`, `ylim = (1,6)`. -/
theorem end_zoom_minsize_spec_witness :
    ((Sys.mk [⟨0, 0, 400, 300, (0, 10), (0, 10), true, true, [], []⟩]
        { Toolbar.init with
          active_tool := some Tool.zoom,
          zoom_rect_start := some (2, 1),
          active_axes := some 0 }).end_zoom
          ⟨280, 270, 7, 1, some 0⟩).axes
        = [⟨0, 0, 400, 300, (0, 10), (0, 10), true, true, [], []⟩]
    ∧ ∃ ax1,
        ((Sys.mk [⟨0, 0, 400, 300, (0, 10), (0, 10), true, true, [], []⟩]
          { Toolbar.init with
            active_tool := some Tool.zoom,
            zoom_rect_start := some (2, 1),
            active_axes := some 0 }).end_zoom
            ⟨280, 120, 7, 6, some 0⟩).axes.get? 0 = some ax1
          ∧ ax1.xlim = (min 2 7, max 2 7) ∧ ax1.ylim = (min 1 6, max 1 6) := by
  constructor
  · exact ((end_zoom_minsize_spec
      (Sys.mk [⟨0, 0, 400, 300, (0, 10), (0, 10), true, true, [], []⟩]
        { Toolbar.init with
          active_tool := some Tool.zoom,
          zoom_rect_start := some (2, 1),
          active_axes := some 0 })
      0 ⟨0, 0, 400, 300, (0, 10), (0, 10), true, true, [], []⟩ (2, 1)
      ⟨280, 270, 7, 1, some 0⟩ rfl rfl rfl).1 (by norm_num)).1
  · exact (end_zoom_minsize_spec
      (Sys.mk [⟨0, 0, 400, 300, (0, 10), (0, 10), true, true, [], []⟩]
        { Toolbar.init with
          active_tool := some Tool.zoom,
          zoom_rect_start := some (2, 1),
          active_axes := some 0 })
      0 ⟨0, 0, 400, 300, (0, 10), (0, 10), true, true, [], []⟩ (2, 1)
      ⟨280, 120, 7, 6, some 0⟩ rfl rfl rfl).2 (by norm_num)

/-- C6 counterexample: with the pan tool active, a press on plot area 0
starts a gesture (`active_axes = some 0`, anchors set); toggling the pan
tool off mid-gesture sets `active_tool = none` but leaves `active_axes`
and the pan anchor in place — nothing is discarded. -/
theorem tool_change_leaves_gesture_state :
    (let s2 :=
      ((Sys.mk [Axes.init 0 0 400 300]
          { Toolbar.init with
            active_tool := some Tool.pan,
            pan_button_value := true }).on_mouse_press
              ⟨10, 10, 3, 5, some 0⟩)
     let s3 : Sys := { s2 with tb := s2.tb.click_pan_button }
     s3.tb.active_tool = none ∧ s3.tb.active_axes = some 0
       ∧ s3.tb.pan_start_canvas = some (10, 10)
       ∧ s3.tb.pan_start_limits = some ((0, 1), (0, 1))) := by
  simp [Sys.on_mouse_press, Sys.determine_active_axes, Sys.start_pan,
    Toolbar.click_pan_button, Toolbar.init, Axes.init]

/-- C6 amended: a tool change (either toggle button, on or off) never
discards pending gesture state: `active_axes` and the pan and zoom
anchors are all retained; the only piece touched is the
preview-rectangle visibility flag, which activating (not deactivating)
the zoom tool clears. -/
theorem tool_change_retains_gesture_state (tb : Toolbar) :
    (tb.click_pan_button.active_axes = tb.active_axes
      ∧ tb.click_pan_button.pan_start_canvas = tb.pan_start_canvas
      ∧ tb.click_pan_button.pan_start_limits = tb.pan_start_limits
      ∧ tb.click_pan_button.pan_axes_bounds = tb.pan_axes_bounds
      ∧ tb.click_pan_button.zoom_rect_start = tb.zoom_rect_start
      ∧ tb.click_pan_button.zoom_rect_visible = tb.zoom_rect_visible)
    ∧ (tb.click_zoom_button.active_axes = tb.active_axes
      ∧ tb.click_zoom_button.pan_start_canvas = tb.pan_start_canvas
      ∧ tb.click_zoom_button.pan_start_limits = tb.pan_start_limits
      ∧ tb.click_zoom_button.pan_axes_bounds = tb.pan_axes_bounds
      ∧ tb.click_zoom_button.zoom_rect_start = tb.zoom_rect_start
      ∧ tb.click_zoom_button.zoom_rect_visible =
          (if tb.zoom_button_value then tb.zoom_rect_visible else false)) := by
  cases hp : tb.pan_button_value <;> cases hz : tb.zoom_button_value <;>
    cases hv : tb.zoom_rect_visible <;>
      simp [Toolbar.click_pan_button, Toolbar.click_zoom_button,
        Toolbar.clear_zoom_rectangle, hp, hz, hv]

/-- C7 failing input: a complete pan gesture (press at canvas `(10,20)`
on plot area 0, then release there).  `_end_pan` clears `_active_axes`
and `_pan_start_limits` but writes the otherwise-unused `_pan_start`
attribute instead of `_pan_start_canvas`: the gesture-start pixel point,
the start data point and the bounds snapshot all survive the release,
contradicting the claim that the entire pan anchor is cleared. -/
theorem end_pan_leaves_anchor_parts :
    (let s2 :=
      ((Sys.mk [Axes.init 0 0 400 300]
          { Toolbar.init with
            active_tool := some Tool.pan,
            pan_button_value := true }).on_mouse_press
              ⟨10, 20, 3, 7, some 0⟩).on_mouse_release
                ⟨10, 20, 3, 7, some 0⟩
     s2.tb.active_axes = none ∧ s2.tb.pan_start_limits = none
       ∧ s2.tb.pan_start_canvas = some (10, 20)
       ∧ s2.tb.pan_start_data = some (3, 7)
       ∧ s2.tb.pan_axes_bounds = some ⟨0, 0, 400, 300, (0, 1), (0, 1)⟩) := by
  simp [Sys.on_mouse_press, Sys.on_mouse_release,
    Sys.determine_active_axes, Sys.start_pan, Toolbar.end_pan,
    Toolbar.init, Axes.init]

theorem press_pan (s : Sys) (i : Nat) (ax : Axes) (e : MouseEvent)
    (hax : s.axes.get? i = some ax)
    (htool : s.tb.active_tool = some Tool.pan)
    (hin : e.inaxes = some i) :
    s.on_mouse_press e = { s with tb := { s.tb with
      active_axes := some i,
      pan_start_canvas := some (e.canvas_x, e.canvas_y),
      pan_start_data := some (e.data_x, e.data_y),
      pan_start_limits := some (ax.xlim, ax.ylim),
      pan_axes_bounds :=
        some ⟨ax.x, ax.y, ax.width, ax.height, ax.xlim, ax.ylim⟩ } } := by
  have hax2 : s.axes[i]? = some ax := by
    rw [← List.get?_eq_getElem?]
    exact hax
  simp [Sys.on_mouse_press, Sys.determine_active_axes, hin, htool,
    Sys.start_pan, hax2]

theorem move_pan (s : Sys) (i : Nat) (ax : Axes) (pc : ℚ × ℚ)
    (pl : (ℚ × ℚ) × (ℚ × ℚ)) (b : PanBounds) (e : MouseEvent)
    (hax : s.axes.get? i = some ax)
    (htool : s.tb.active_tool = some Tool.pan)
    (hpc : s.tb.pan_start_canvas = some pc)
    (hpl : s.tb.pan_start_limits = some pl)
    (hb : s.tb.pan_axes_bounds = some b)
    (ha : s.tb.active_axes = some i)
    (hin : e.inaxes = some i) :
    s.on_mouse_move e =
      { s with
        axes :=
          s.axes.set i
            ((ax.set_xlim
                (some (pl.1.1 -
                  (e.canvas_x - pc.1) / b.width * (b.xlim.2 - b.xlim.1)))
                (some (pl.1.2 -
                  (e.canvas_x - pc.1) / b.width * (b.xlim.2 - b.xlim.1)))).set_ylim
              (some (pl.2.1 -
                -((e.canvas_y - pc.2) / b.height) * (b.ylim.2 - b.ylim.1)))
              (some (pl.2.2 -
                -((e.canvas_y - pc.2) / b.height) * (b.ylim.2 - b.ylim.1)))) } := by
  have hax2 : s.axes[i]? = some ax := by
    rw [← List.get?_eq_getElem?]
    exact hax
  simp [Sys.on_mouse_move, Sys.do_pan, htool, hpc, hpl, hb, ha, hin, hax2]

theorem release_pan (s : Sys) (i : Nat) (e : MouseEvent)
    (htool : s.tb.active_tool = some Tool.pan)
    (hpc : s.tb.pan_start_canvas ≠ none)
    (ha : s.tb.active_axes = some i)
    (hin : e.inaxes = some i) :
    s.on_mouse_release e = { s with tb := s.tb.end_pan } := by
  simp [Sys.on_mouse_release, Sys.determine_active_axes, htool, hpc, ha,
    hin]

/-- The effect of one applied pan move on the gestured axes when the
anchor was captured at that axes' current state: both limits translated
by the canvas delta scaled through the frozen bounds, both axes leaving
autoscale. -/
def pannedAxes (ax : Axes) (dxc dyc : ℚ) : Axes :=
  (ax.set_xlim
      (some (ax.xlim.1 - dxc / ax.width * (ax.xlim.2 - ax.xlim.1)))
      (some (ax.xlim.2 - dxc / ax.width * (ax.xlim.2 - ax.xlim.1)))).set_ylim
    (some (ax.ylim.1 - -(dyc / ax.height) * (ax.ylim.2 - ax.ylim.1)))
    (some (ax.ylim.2 - -(dyc / ax.height) * (ax.ylim.2 - ax.ylim.1)))

/-- Scenario driver: one complete pan gesture on plot area `i` — press at
canvas `(px, py)`, one move by canvas delta `(dx, dy)`, release at the
move point.  The synthetic events' data coordinates are irrelevant to
panning (the code uses only canvas coordinates) and are set to 0. -/
def Sys.pan_gesture (s : Sys) (i : Nat) (px py dx dy : ℚ) : Sys :=
  ((s.on_mouse_press ⟨px, py, 0, 0, some i⟩).on_mouse_move
      ⟨px + dx, py + dy, 0, 0, some i⟩).on_mouse_release
    ⟨px + dx, py + dy, 0, 0, some i⟩

theorem pan_gesture_spec (s : Sys) (i : Nat) (ax : Axes)
    (hax : s.axes.get? i = some ax)
    (htool : s.tb.active_tool = some Tool.pan)
    (px py dx dy : ℚ) :
    s.pan_gesture i px py dx dy =
      { axes := s.axes.set i (pannedAxes ax dx dy),
        tb := { s.tb with
          pan_start := none,
          pan_start_canvas := some (px, py),
          pan_start_data := some (0, 0),
          pan_start_limits := none,
          pan_axes_bounds :=
            some ⟨ax.x, ax.y, ax.width, ax.height, ax.xlim, ax.ylim⟩,
          active_axes := none } } := by
  have hax2 : s.axes[i]? = some ax := by
    rw [← List.get?_eq_getElem?]
    exact hax
  simp [Sys.pan_gesture, Sys.on_mouse_press, Sys.determine_active_axes,
    Sys.start_pan, Sys.on_mouse_move, Sys.do_pan, Sys.on_mouse_release,
    Toolbar.end_pan, hax2, htool, pannedAxes, Axes.set_xlim,
    Axes.set_ylim, add_sub_cancel_left]

/-- C4: during a pan gesture every move event computes its pixel delta
against the frozen gesture-start anchor: a second move produces the same
state whether or not an earlier move happened (no per-event delta
compounding).  Consequently two sequential pan gestures by pixel deltas
`(dx,dy)` and then `(-dx,-dy)` restore both limits exactly (exact
rational arithmetic). -/
theorem pan_moves_cumulative_and_gestures_invert (s : Sys) (i : Nat)
    (ax : Axes) (hax : s.axes.get? i = some ax)
    (htool : s.tb.active_tool = some Tool.pan)
    (px py pdx pdy mx my m1dx m1dy nx ny n1dx n1dy dx dy qx qy : ℚ) :
    (((s.on_mouse_press ⟨px, py, pdx, pdy, some i⟩).on_mouse_move
        ⟨mx, my, m1dx, m1dy, some i⟩).on_mouse_move
          ⟨nx, ny, n1dx, n1dy, some i⟩
      = (s.on_mouse_press ⟨px, py, pdx, pdy, some i⟩).on_mouse_move
          ⟨nx, ny, n1dx, n1dy, some i⟩)
    ∧ (((s.on_mouse_press ⟨px, py, pdx, pdy, some i⟩).on_mouse_move
          ⟨mx, my, m1dx, m1dy, some i⟩).axes.get? i
        = some (pannedAxes ax (mx - px) (my - py)))
    ∧ ∃ ax2,
        ((s.pan_gesture i px py dx dy).pan_gesture i qx qy
            (-dx) (-dy)).axes.get? i = some ax2
          ∧ ax2.xlim = ax.xlim ∧ ax2.ylim = ax.ylim := by
  have hlen : i < s.axes.length := by
    rcases List.get?_eq_some.mp hax with ⟨h, _⟩
    exact h
  have hax2 : s.axes[i]? = some ax := by
    rw [← List.get?_eq_getElem?]
    exact hax
  refine ⟨?_, ?_, ?_⟩
  · simp [Sys.on_mouse_press, Sys.determine_active_axes, Sys.start_pan,
      Sys.on_mouse_move, Sys.do_pan, hax2, htool, Axes.set_xlim,
      Axes.set_ylim, List.set_set, List.getElem?_set_eq_of_lt, hlen]
  · simp [Sys.on_mouse_press, Sys.determine_active_axes, Sys.start_pan,
      Sys.on_mouse_move, Sys.do_pan, hax2, htool, pannedAxes,
      Axes.set_xlim, Axes.set_ylim, List.getElem?_set_eq_of_lt, hlen]
  · have g1 := pan_gesture_spec s i ax hax htool px py dx dy
    have hax3 : (s.pan_gesture i px py dx dy).axes.get? i
        = some (pannedAxes ax dx dy) := by
      rw [g1]
      exact list_get?_set_self _ _ _ hlen
    have htool2 : (s.pan_gesture i px py dx dy).tb.active_tool
        = some Tool.pan := by
      rw [g1]
      exact htool
    have g2 := pan_gesture_spec _ i _ hax3 htool2 qx qy (-dx) (-dy)
    refine ⟨pannedAxes (pannedAxes ax dx dy) (-dx) (-dy), ?_, ?_, ?_⟩
    · rw [g2]
      refine list_get?_set_self _ _ _ ?_
      rw [g1]
      simpa using hlen
    · simp [pannedAxes, Axes.set_xlim, Axes.set_ylim, Prod.ext_iff]
      constructor <;> ring
    · simp [pannedAxes, Axes.set_xlim, Axes.set_ylim, Prod.ext_iff]
      constructor <;> ring

/-- Closed witness for the C4 theorem at a concrete plot area and
concrete gesture coordinates. -/
theorem pan_moves_cumulative_and_gestures_invert_witness :
    (((Sys.mk [⟨20, 30, 400, 300, (0, 10), (-2, 2), true, true, [], []⟩]
          { Toolbar.init with
            active_tool := some Tool.pan,
            pan_button_value := true }).on_mouse_press
              ⟨100, 100, 0, 0, some 0⟩).on_mouse_move
        ⟨110, 120, 0, 0, some 0⟩).on_mouse_move ⟨130, 140, 0, 0, some 0⟩
      = ((Sys.mk [⟨20, 30, 400, 300, (0, 10), (-2, 2), true, true, [], []⟩]
          { Toolbar.init with
            active_tool := some Tool.pan,
            pan_button_value := true }).on_mouse_press
              ⟨100, 100, 0, 0, some 0⟩).on_mouse_move
        ⟨130, 140, 0, 0, some 0⟩
    ∧ (((Sys.mk [⟨20, 30, 400, 300, (0, 10), (-2, 2), true, true, [], []⟩]
          { Toolbar.init with
            active_tool := some Tool.pan,
            pan_button_value := true }).on_mouse_press
              ⟨100, 100, 0, 0, some 0⟩).on_mouse_move
          ⟨110, 120, 0, 0, some 0⟩).axes.get? 0
        = some (pannedAxes
            ⟨20, 30, 400, 300, (0, 10), (-2, 2), true, true, [], []⟩
            (110 - 100) (120 - 100))
    ∧ ∃ ax2,
        (((Sys.mk [⟨20, 30, 400, 300, (0, 10), (-2, 2), true, true, [], []⟩]
            { Toolbar.init with
              active_tool := some Tool.pan,
              pan_button_value := true }).pan_gesture 0 100 100 30 40).pan_gesture
              0 70 80 (-30) (-40)).axes.get? 0 = some ax2
          ∧ ax2.xlim = (0, 10) ∧ ax2.ylim = (-2, 2) :=
  pan_moves_cumulative_and_gestures_invert
    (Sys.mk [⟨20, 30, 400, 300, (0, 10), (-2, 2), true, true, [], []⟩]
      { Toolbar.init with
        active_tool := some Tool.pan,
        pan_button_value := true })
    0 ⟨20, 30, 400, 300, (0, 10), (-2, 2), true, true, [], []⟩ rfl rfl
    100 100 0 0 110 120 0 0 130 140 0 0 30 40 70 80

/-- C10: mutating the view through the gesture controller permanently
disables autoscaling.  An applied pan move and a completed
(non-rejected) zoom gesture both route through `set_xlim`/`set_ylim`,
which transition both axes to Fixed (`autoscale = False`); and a `plot()`
call on an axes with both flags off leaves the limits (and the flags)
unchanged — nothing in the code ever sets a flag back to `True`. -/
theorem interaction_fixes_limits :
    (∀ (s : Sys) (e : MouseEvent) (i : Nat) (pc : ℚ × ℚ)
        (pl : (ℚ × ℚ) × (ℚ × ℚ)) (b : PanBounds) (ax : Axes),
        s.tb.pan_start_canvas = some pc →
        s.tb.pan_start_limits = some pl →
        s.tb.active_axes = some i →
        s.tb.pan_axes_bounds = some b →
        s.axes.get? i = some ax →
        ∃ ax1, (s.do_pan e).axes.get? i = some ax1
          ∧ ax1.autoscale_x = false ∧ ax1.autoscale_y = false)
    ∧ (∀ (s : Sys) (e : MouseEvent) (i : Nat) (z : ℚ × ℚ) (ax : Axes),
        s.tb.zoom_rect_start = some z →
        s.tb.active_axes = some i →
        s.axes.get? i = some ax →
        ¬(|e.data_x - z.1| < 1/100 ∨ |e.data_y - z.2| < 1/100) →
        ∃ ax1, (s.end_zoom e).axes.get? i = some ax1
          ∧ ax1.autoscale_x = false ∧ ax1.autoscale_y = false)
    ∧ (∀ (ax : Axes) (args : List (List ℚ)) (ax2 : Axes),
        ax.autoscale_x = false → ax.autoscale_y = false →
        ax.plotCall args = .ok ax2 →
        ax2.xlim = ax.xlim ∧ ax2.ylim = ax.ylim
          ∧ ax2.autoscale_x = false ∧ ax2.autoscale_y = false) := by
  refine ⟨?_, ?_, ?_⟩
  · intro s e i pc pl b ax hpc hpl ha hb hax
    have hlen : i < s.axes.length := by
      rcases List.get?_eq_some.mp hax with ⟨h, _⟩
      exact h
    simp only [Sys.do_pan, hpc, hpl, ha, hb, hax]
    exact ⟨_, list_get?_set_self _ _ _ hlen, rfl, rfl⟩
  · intro s e i z ax hz ha hax hbig
    have hlen : i < s.axes.length := by
      rcases List.get?_eq_some.mp hax with ⟨h, _⟩
      exact h
    simp only [Sys.end_zoom, hz, ha, hax]
    rw [if_neg hbig]
    exact ⟨_, list_get?_set_self _ _ _ hlen, rfl, rfl⟩
  · intro ax args ax2 hx hy hok
    match args with
    | [] => simp [Axes.plotCall] at hok
    | [y0] =>
      simp [Axes.plotCall, Axes.plot_parsed, hx, hy, pure,
        Except.pure] at hok
      subst hok
      exact ⟨rfl, rfl, rfl, rfl⟩
    | [x0, y0] =>
      simp [Axes.plotCall, Axes.plot_parsed, hx, hy, pure,
        Except.pure] at hok
      subst hok
      exact ⟨rfl, rfl, rfl, rfl⟩
    | _ :: _ :: _ :: _ => simp [Axes.plotCall] at hok

/-- Closed witness for the C10 theorem: a concrete applied pan move, a
concrete completed zoom, and a concrete `plot` call on a Fixed axes. -/
theorem interaction_fixes_limits_witness :
    (∃ ax1, ((Sys.mk
        [⟨0, 0, 400, 300, (0, 10), (0, 10), true, true, [], []⟩]
        { Toolbar.init with
          active_tool := some Tool.pan,
          pan_start_canvas := some (5, 5),
          pan_start_limits := some ((0, 10), (0, 10)),
          pan_axes_bounds := some ⟨0, 0, 400, 300, (0, 10), (0, 10)⟩,
          active_axes := some 0 }).do_pan
            ⟨6, 7, 0, 0, some 0⟩).axes.get? 0 = some ax1
        ∧ ax1.autoscale_x = false ∧ ax1.autoscale_y = false)
    ∧ (∃ ax1, ((Sys.mk
        [⟨0, 0, 400, 300, (0, 10), (0, 10), true, true, [], []⟩]
        { Toolbar.init with
          active_tool := some Tool.zoom,
          zoom_rect_start := some (2, 1),
          active_axes := some 0 }).end_zoom
            ⟨280, 120, 7, 6, some 0⟩).axes.get? 0 = some ax1
        ∧ ax1.autoscale_x = false ∧ ax1.autoscale_y = false)
    ∧ ((Axes.mk 0 0 400 300 (3, 9) (1, 4) false false [] []).plotCall
          [[1, 2]]
        = .ok (Axes.mk 0 0 400 300 (3, 9) (1, 4) false false
            [Line2D.mk (npArange 2) [1, 2]] [])
      ∧ (Axes.mk 0 0 400 300 (3, 9) (1, 4) false false
            [Line2D.mk (npArange 2) [1, 2]] []).xlim = (3, 9)
      ∧ (Axes.mk 0 0 400 300 (3, 9) (1, 4) false false
            [Line2D.mk (npArange 2) [1, 2]] []).ylim = (1, 4)) :=
  ⟨interaction_fixes_limits.1 _ ⟨6, 7, 0, 0, some 0⟩ 0 (5, 5)
      ((0, 10), (0, 10)) ⟨0, 0, 400, 300, (0, 10), (0, 10)⟩
      ⟨0, 0, 400, 300, (0, 10), (0, 10), true, true, [], []⟩
      rfl rfl rfl rfl rfl,
    interaction_fixes_limits.2.1 _ ⟨280, 120, 7, 6, some 0⟩ 0 (2, 1)
      ⟨0, 0, 400, 300, (0, 10), (0, 10), true, true, [], []⟩
      rfl rfl rfl (by norm_num),
    by decide,
    ((interaction_fixes_limits.2.2
        (Axes.mk 0 0 400 300 (3, 9) (1, 4) false false [] []) [[1, 2]]
        (Axes.mk 0 0 400 300 (3, 9) (1, 4) false false
          [Line2D.mk (npArange 2) [1, 2]] [])
        rfl rfl (by decide)).1 : _),
    (interaction_fixes_limits.2.2
        (Axes.mk 0 0 400 300 (3, 9) (1, 4) false false [] []) [[1, 2]]
        (Axes.mk 0 0 400 300 (3, 9) (1, 4) false false
          [Line2D.mk (npArange 2) [1, 2]] [])
        rfl rfl (by decide)).2.1⟩

end Mplcanvas
